import Mathlib

/-!
Shallow embedding of the KYC verification subsystem of the swaphubu_lite
backend (`src/backend/src/services/kyc_service.py`,
`src/backend/src/services/shufti_service.py`,
`src/backend/src/repositories/KYCRepository.py`,
`src/backend/src/models/KYCVerification.py`, `src/backend/src/models/User.py`),
together with theorems settling the specification claims about it.

Conventions of the embedding:
* database ids and timestamps are `Nat` (ids are allocated from a counter,
  timestamps from a logical clock that advances on every row creation, which
  mirrors the strictly increasing `datetime.utcnow()` values used by the code);
* the JSON payloads stored in the `provider_response : Text` column are kept
  in parsed form (`JObj`), since every write of that column in the source is
  `json.dumps` of a Python dict and every business read is
  `json.loads(... or "{}")`;
* fallible operations return `Except (Nat × DB) α`: the error component
  carries the HTTP status code of the raised `HTTPException` together with the
  database state at the moment of the raise.
-/

/-- JSON values, as stored (serialized) in the `provider_response` column. -/
inductive JVal where
  | jnull : JVal
  | jbool : Bool → JVal
  | jstr : String → JVal
  | jnat : Nat → JVal
  | jarr : List JVal → JVal
  | jobj : List (String × JVal) → JVal

/-- A parsed JSON object: an ordered association list, as a Python dict. -/
abbrev JObj := List (String × JVal)

/-- Python dict assignment `d[k] = v`: replace in place if the key exists
(Python dicts preserve insertion order), otherwise append. -/
def objSet (d : JObj) (k : String) (v : JVal) : JObj :=
  if d.any (fun p => p.1 = k) then
    d.map (fun p => if p.1 = k then (k, v) else p)
  else
    d ++ [(k, v)]

/-- One row of the `kyc_verifications` table
(`src/backend/src/models/KYCVerification.py`). -/
structure KYCRec where
  id : Nat
  user_id : Nat
  reference : String
  status : String
  provider_response : Option JObj
  submitted_at : Nat
  reviewed_at : Option Nat

/-- One row of the `users` table (`src/backend/src/models/User.py`); only the
fields the KYC subsystem reads or writes are kept. -/
structure UserRec where
  id : Nat
  first_name : String
  last_name : String
  email : String
  country : String
  is_verified : Bool
  is_blocked : Bool
deriving DecidableEq

/-- The database state: the two tables touched by the KYC subsystem, an id
allocator and a logical clock. -/
structure DB where
  users : List UserRec
  records : List KYCRec
  next_id : Nat
  now : Nat

/-- Python `str.startswith(p)`, computed on the character lists (the
byte-indexed core `String.startsWith` does not reduce in the kernel). -/
def pyStartsWith (s p : String) : Bool := p.data.isPrefixOf s.data

/-- ASCII lowering of one character, as `str.lower()` acts on the ASCII
range relevant to hex digests. -/
def pyLowerChar (c : Char) : Char :=
  if 'A' ≤ c ∧ c ≤ 'Z' then Char.ofNat (c.toNat + 32) else c

/-- Python `str.lower()` on the character list. -/
def pyLower (s : String) : String := String.mk (s.data.map pyLowerChar)

/-- Python `str.strip()`: drop whitespace from both ends. -/
def pyStrip (s : String) : String :=
  String.mk
    (((s.data.dropWhile Char.isWhitespace).reverse.dropWhile
        Char.isWhitespace).reverse)

/-- Split a character list at every occurrence of `c`. -/
def splitOnChar (c : Char) : List Char → List (List Char)
  | [] => [[]]
  | x :: xs =>
    if x = c then [] :: splitOnChar c xs
    else
      match splitOnChar c xs with
      | h :: t => (x :: h) :: t
      | [] => [[x]]

/-- Python `s.split(".")`. -/
def pySplitDot (s : String) : List String :=
  (splitOnChar '.' s.data).map String.mk

/-- Python `"." in s` for a single character. -/
def pyContains (s : String) (c : Char) : Bool := s.data.contains c

/-- `User.get_by_id(db, id)` (crud decorator): first user row with this id. -/
def DB.getUserById (db : DB) (uid : Nat) : Option UserRec :=
  db.users.find? (fun u => u.id == uid)

/-- `User.update(db, id, {"is_verified": b})`: set the field on the matching
row (the crud decorator's `update` with a single field). -/
def DB.setUserVerified (db : DB) (uid : Nat) (b : Bool) : DB :=
  { db with users := db.users.map (fun u =>
      if u.id == uid then { u with is_verified := b } else u) }

/-- `User.update(db, id, {"is_blocked": b})`. -/
def DB.setUserBlocked (db : DB) (uid : Nat) (b : Bool) : DB :=
  { db with users := db.users.map (fun u =>
      if u.id == uid then { u with is_blocked := b } else u) }

/-- `KYCVerification.create(db, ...)`: append a fresh row; `submitted_at` is
the current clock, `reviewed_at` is not passed by any caller and so is null. -/
def DB.createRecord (db : DB) (uid : Nat) (ref status : String)
    (pr : Option JObj) : DB :=
  { db with
    records := db.records ++ [{
      id := db.next_id, user_id := uid, reference := ref, status := status,
      provider_response := pr, submitted_at := db.now, reviewed_at := none }],
    next_id := db.next_id + 1,
    now := db.now + 1 }

/-- `KYCVerification.update(db, id, {"status", "reviewed_at",
"provider_response"})`: the field updates `process_webhook` performs. -/
def DB.updateRecord (db : DB) (rid : Nat) (status : String)
    (reviewed : Option Nat) (pr : Option JObj) : DB :=
  { db with records := db.records.map (fun r =>
      if r.id == rid then
        { r with status := status, reviewed_at := reviewed,
                 provider_response := pr }
      else r) }

namespace KYCRepository

/-- `KYCRepository.find_by_reference`: first row with this reference (the
column carries a uniqueness constraint, so at most one row matches). -/
def find_by_reference (db : DB) (ref : String) : Option KYCRec :=
  db.records.find? (fun r => r.reference == ref)

/-- `KYCRepository.find_pending_verification_by_user`: first row of the user
whose status is in `["initiated", "pending"]`. -/
def find_pending_verification_by_user (db : DB) (uid : Nat) : Option KYCRec :=
  db.records.find? (fun r =>
    r.user_id == uid && (r.status == "initiated" || r.status == "pending"))

/-- Insert a row into a list sorted by `submitted_at` descending. -/
def insertBySubmittedDesc (r : KYCRec) : List KYCRec → List KYCRec
  | [] => [r]
  | x :: xs =>
    if x.submitted_at ≤ r.submitted_at then r :: x :: xs
    else x :: insertBySubmittedDesc r xs

/-- Insertion sort by `submitted_at` descending (the repository's
`order_by(KYCVerification.submitted_at.desc())`). -/
def sortBySubmittedDesc : List KYCRec → List KYCRec
  | [] => []
  | x :: xs => insertBySubmittedDesc x (sortBySubmittedDesc xs)

/-- `KYCRepository.get_user_verifications`: all rows of the user, newest
first. -/
def get_user_verifications (db : DB) (uid : Nat) : List KYCRec :=
  sortBySubmittedDesc (db.records.filter (fun r => r.user_id == uid))

end KYCRepository

/-- An inbound Shufti webhook payload (`webhook_data` in
`KYCService.process_webhook`); the fields the handler reads.  A `none` in an
`Option` field models the key being absent from the JSON object; `reference`,
`event` and `verification_status` are read with `.get(key, "")`, so for them
an absent key and an empty string coincide. -/
structure WebhookData where
  reference : String
  event : String
  verification_status : String
  declined_reason : Option String
  declined_codes : Option (List String)
  verification_data : Option JVal
  service : Option JVal
  info : Option JVal

/-- The payload as the JSON object stored under the `webhook_data` key of the
record's accumulated `provider_response`. -/
def WebhookData.toJObj (wd : WebhookData) : JObj :=
  [("reference", JVal.jstr wd.reference),
   ("event", JVal.jstr wd.event),
   ("verification_status", JVal.jstr wd.verification_status)]
  ++ (match wd.declined_reason with
      | some s => [("declined_reason", JVal.jstr s)] | none => [])
  ++ (match wd.declined_codes with
      | some l => [("declined_codes", JVal.jarr (l.map JVal.jstr))]
      | none => [])
  ++ (match wd.verification_data with
      | some v => [("verification_data", v)] | none => [])
  ++ (match wd.service with | some v => [("service", v)] | none => [])
  ++ (match wd.info with | some v => [("info", v)] | none => [])

namespace KYCService

/-- The `status_map` fallback of `process_webhook` (lines 481–486), applied
with `dict.get(webhook_status, "error")`. -/
def status_map_get (webhook_status : String) : String :=
  if webhook_status = "1" then "verified"
  else if webhook_status = "0" then "declined"
  else if webhook_status = "2" then "pending"
  else if webhook_status = "3" then "cancelled"
  else "error"

/-- The event classification chain of `process_webhook` (lines 491–505). -/
def webhookNewStatus (event_type webhook_status : String) : String :=
  if event_type = "verification.accepted" then "verified"
  else if event_type = "verification.declined" then "declined"
  else if event_type = "verification.cancelled" then "cancelled"
  else if pyStartsWith event_type "verification." then "pending"
  else if event_type = "request.pending" then "pending"
  else if pyStartsWith event_type "request." then "pending"
  else status_map_get webhook_status

/-- The keys of the `retry_eligible_codes` dict (lines 546–566). -/
def retry_eligible_codes : List String :=
  ["SPDR03", "SPDR48", "SPDR89", "SPDR04", "SPDR05", "SPDR06", "SPDR07",
   "SPDR08", "SPDR19", "SPDR15", "SPFR01", "SPFR02", "SPFR03", "SPDR278",
   "SPDR01", "SPDR02", "SPFR10"]

/-- The keys of the `retry_blocked_codes` dict (lines 568–572): empty in the
default policy, kept as an extension point. -/
def retry_blocked_codes : List String := []

/-- The `for code in decline_codes` loop (lines 579–586): scan the codes,
breaking at the first retry-blocked code; returns
`(should_retry, retry_blocked)`. -/
def classifyCodes : List String → Bool → Bool × Bool
  | [], should_retry => (should_retry, false)
  | c :: rest, should_retry =>
    if retry_blocked_codes.contains c then (should_retry, true)
    else if retry_eligible_codes.contains c then classifyCodes rest true
    else classifyCodes rest should_retry

end KYCService

namespace KYCService

/-- `KYCService._update_user_verification_status` (lines 37–88): set the
user's `is_verified` to `kyc_status == "verified"`, skipping the write when
the field already has that value; returns whether the user row was found and
left in the correct state, together with the resulting database. -/
def _update_user_verification_status (uid : Nat) (kyc_status : String)
    (db : DB) : Bool × DB :=
  match db.getUserById uid with
  | none => (false, db)
  | some user =>
    let should_be_verified := kyc_status == "verified"
    if user.is_verified != should_be_verified then
      (true, db.setUserVerified uid should_be_verified)
    else
      (true, db)

/-- `KYCService.is_user_blocked_from_kyc` (lines 134–150). -/
def is_user_blocked_from_kyc (uid : Nat) (db : DB) : Bool :=
  match db.getUserById uid with
  | some user => user.is_blocked
  | none => false

/-- The body of the auto-retry branch when `retry_count < 2`
(lines 598–696): allocate the retry reference, create the `retry_pending`
row and write the `auto_retry` marker — all only when the user row exists. -/
def scheduleRetry (fresh : String) (v : KYCRec) (reasonsJ : JVal)
    (decline_codes : List String) (retry_count : Nat) (existing_data : JObj)
    (db : DB) : JObj × DB :=
  let retry_reference :=
    "RETRY_" ++ toString (retry_count + 1) ++ "_" ++ v.reference ++ "_"
      ++ fresh
  match db.getUserById v.user_id with
  | some _user =>
    let db := db.createRecord v.user_id retry_reference "retry_pending"
      (some [("retry_info", JVal.jobj
        [("is_retry", JVal.jbool true),
         ("attempt_number", JVal.jnat (retry_count + 1)),
         ("original_reference", JVal.jstr v.reference),
         ("decline_reasons", JVal.jarr (decline_codes.map JVal.jstr))])])
    let existing_data := objSet existing_data "auto_retry"
      (JVal.jobj
        [("needed", JVal.jbool true),
         ("retry_reference", JVal.jstr retry_reference),
         ("attempt_number", JVal.jnat (retry_count + 1)),
         ("user_id", JVal.jstr (toString v.user_id)),
         ("decline_reasons", reasonsJ)])
    (existing_data, db)
  | none =>
    -- `if user:` fails: no retry row and no `auto_retry` marker.
    (existing_data, db)

/-- The body of the auto-retry branch when `retry_count >= 2`
(lines 697–715): record the exhaustion marker and block the user,
skipping the write when the user is already blocked. -/
def blockAfterMaxRetries (v : KYCRec) (existing_data : JObj) (db : DB) :
    JObj × DB :=
  let existing_data := objSet existing_data "auto_retry"
    (JVal.jobj
      [("initiated", JVal.jbool false),
       ("reason", JVal.jstr "Maximum retry attempts reached")])
  let db := match db.getUserById v.user_id with
    | some user =>
      if user.is_blocked then db
      else db.setUserBlocked v.user_id true
    | none => db
  (existing_data, db)

/-- The interior of the decline block once its condition holds
(lines 529–722): record decline reasons/codes, classify the codes, and
either schedule a retry, block after exhaustion, or do nothing. -/
def declineActive (fresh : String) (wd : WebhookData) (v : KYCRec)
    (existing_data : JObj) (db : DB) : JObj × DB :=
  let decline_reasons_raw := wd.declined_reason.getD ""
  let decline_codes := wd.declined_codes.getD []
  let decline_reasons : Option (List String) :=
    if decline_reasons_raw ≠ "" ∧ pyStrip decline_reasons_raw ≠ "" then
      some [decline_reasons_raw]
    else none
  let reasonsJ : JVal := match decline_reasons with
    | some l => JVal.jarr (l.map JVal.jstr)
    | none => JVal.jnull
  let existing_data := objSet existing_data "decline_reasons" reasonsJ
  let existing_data := objSet existing_data "decline_codes"
    (JVal.jarr (decline_codes.map JVal.jstr))
  let sr := classifyCodes decline_codes false
  if sr.1 && !sr.2 then
    let retry_count :=
      ((KYCRepository.get_user_verifications db v.user_id).filter
        (fun x => x.status == "declined")).length
    if retry_count < 2 then
      scheduleRetry fresh v reasonsJ decline_codes retry_count
        existing_data db
    else
      blockAfterMaxRetries v existing_data db
  else
    (existing_data, db)

/-- The decline-reason / auto-retry block of `process_webhook`
(lines 526–722). `fresh` stands for the `uuid.uuid4().hex[:8]` suffix of the
retry reference.  Returns the accumulated `existing_data` and the database
(possibly extended with a `retry_pending` row or with the user blocked). -/
def declineRetryStep (fresh : String) (wd : WebhookData)
    (verification : KYCRec) (new_status : String) (existing_data : JObj)
    (db : DB) : JObj × DB :=
  if (wd.event = "verification.declined" ∨ new_status = "declined")
      ∧ (wd.declined_reason.isSome ∨ wd.declined_codes.isSome) then
    declineActive fresh wd verification existing_data db
  else
    (existing_data, db)

/-- The `existing_data` accumulated before the decline block: the merge of
the stored `provider_response` with the `webhook_data` and (when present)
`verification_details` keys (lines 511–523). -/
def webhookBaseData (wd : WebhookData) (v : KYCRec) : JObj :=
  -- json.loads(verification.provider_response or "{}"); stored values are
  -- always json.dumps output, so the JSONDecodeError arm is dead.
  let ed := objSet (v.provider_response.getD []) "webhook_data"
    (JVal.jobj wd.toJObj)
  match wd.verification_data with
  | some jv => objSet ed "verification_details" jv
  | none => ed

/-- The `service` / `info` merges after the decline block (lines 724–729). -/
def webhookFinalData (wd : WebhookData) (ed : JObj) : JObj :=
  let ed2 := match wd.service with
    | some jv => objSet ed "service" jv
    | none => ed
  match wd.info with
  | some jv => objSet ed2 "info" jv
  | none => ed2

/-- `KYCService.process_webhook` (lines 424–780), as invoked from
`process_webhook_request` with `signature = ""` (the signature was already
checked against the raw bytes), so the in-method signature block is skipped.
Errors carry the HTTP status of the raised `HTTPException` and the database
state at the raise; the success value is the resulting database (the returned
acknowledgment dict is a constant).  `KYCVerification.update` returns `None`
only when the row is gone (rows are never deleted), in which case the code
raises a 500; that guard is the `.any` test below. -/
def process_webhook (fresh : String) (wd : WebhookData) (db : DB) :
    Except (Nat × DB) DB :=
  if wd.reference = "" then .error (400, db)
  else
    match KYCRepository.find_by_reference db wd.reference with
    | none => .error (404, db)
    | some verification =>
      let new_status := webhookNewStatus wd.event wd.verification_status
      let ed := declineRetryStep fresh wd verification new_status
        (webhookBaseData wd verification) db
      if ed.2.records.any (fun r => r.id == verification.id) then
        let db3 := ed.2.updateRecord verification.id new_status
          (some ed.2.now) (some (webhookFinalData wd ed.1))
        .ok (if new_status = "verified" ∨ new_status = "declined" then
               (_update_user_verification_status verification.user_id
                 new_status db3).2
             else db3)
      else .error (500, ed.2)

/-- The state `process_webhook` commits on its success path, given the
record `v` found for the reference. -/
def webhookPostState (fresh : String) (wd : WebhookData) (v : KYCRec)
    (db : DB) : DB :=
  let ns := webhookNewStatus wd.event wd.verification_status
  let ed := declineRetryStep fresh wd v ns (webhookBaseData wd v) db
  let db3 := ed.2.updateRecord v.id ns (some ed.2.now)
    (some (webhookFinalData wd ed.1))
  if ns = "verified" ∨ ns = "declined" then
    (_update_user_verification_status v.user_id ns db3).2
  else db3

end KYCService

/-- A parsed 200-response of the provider's verification-start API
(`ShuftiService.start_verification`); the fields the KYC service reads. -/
structure ShuftiResult where
  event : String
  verification_url : Option String

/-- The response as stored by `json.dumps(result)` in `provider_response`. -/
def ShuftiResult.toJObj (r : ShuftiResult) : JObj :=
  [("event", JVal.jstr r.event)]
  ++ (match r.verification_url with
      | some u => [("verification_url", JVal.jstr u)]
      | none => [])

namespace KYCService

/-- `KYCService._get_status_from_result` (lines 320–342): the segment after
the first `"."` of the `event` field, else `"initiated"`.  (When the event
contains a dot, `split(".")` has at least two parts, so the `IndexError`
fallback arm is dead.) -/
def _get_status_from_result (result : ShuftiResult) : String :=
  let event := result.event
  if event ≠ "" ∧ pyContains event '.' then
    match pySplitDot event with
    | _ :: second :: _ => second
    | _ => "initiated"
  else "initiated"

/-- The response of a successful verification start:
`(verification_id, reference, verification_url)`. -/
structure KYCStartResp where
  verification_id : Nat
  reference : String
  verification_url : Option String
deriving DecidableEq

/-- `KYCService.start_verification` (lines 244–318).  The outbound provider
call is an oracle argument: `.ok result` for an HTTP 200, `.error msg` for a
`KYCError` raised by `ShuftiService.start_verification` (surfaced as an
HTTP 400); `reference` stands for the generated
`KYC_<uid>_<timestamp>_<uuid>` string. -/
def start_verification (provider : Except String ShuftiResult)
    (reference : String) (uid : Nat) (db : DB) :
    Except (Nat × DB) (KYCStartResp × DB) :=
  if is_user_blocked_from_kyc uid db then .error (403, db)
  else
    match provider with
    | .error _ => .error (400, db)
    | .ok result =>
      let newId := db.next_id
      let db' := db.createRecord uid reference
        (_get_status_from_result result) (some result.toJObj)
      .ok ({ verification_id := newId, reference := reference,
             verification_url := result.verification_url }, db')

/-- `KYCService.start_verification_by_user_id` (lines 344–421). -/
def start_verification_by_user_id (provider : Except String ShuftiResult)
    (reference : String) (uid : Nat) (db : DB) :
    Except (Nat × DB) (KYCStartResp × DB) :=
  match db.getUserById uid with
  | none => .error (404, db)
  | some user =>
    if is_user_blocked_from_kyc uid db then .error (403, db)
    else if user.first_name = "" ∨ user.last_name = "" ∨ user.email = "" then
      .error (400, db)
    else
      match KYCRepository.find_pending_verification_by_user db uid with
      | some _existing =>
        -- Source line 397 evaluates
        -- `existing_verification.provider_response.get("verification_url")`.
        -- `provider_response` is a `Text` column, so its Python value is a
        -- `str` (every write stores `json.dumps(...)`) or `None`; neither has
        -- a `.get` method, so the expression raises `AttributeError`, which
        -- the `except Exception` handler at line 415 turns into an HTTP 500.
        .error (500, db)
      | none => start_verification provider reference uid db

/-- `KYCService.start_retry_verification` (lines 152–242).  Returns the
`success` flag of the response dict together with the resulting database; all
failure paths return `success = False` without raising. -/
def start_retry_verification (provider : Except String ShuftiResult)
    (uid : Nat) (db : DB) : Bool × DB :=
  if is_user_blocked_from_kyc uid db then (false, db)
  else
    match db.records.find? (fun r =>
        r.user_id == uid && r.status == "retry_pending") with
    | none => (false, db)
    | some rv =>
      match db.getUserById uid with
      | none => (false, db)
      | some _user =>
        match provider with
        | .error _ => (false, db)
        | .ok result =>
          let retry_info :=
            ((rv.provider_response.getD []).lookup "retry_info").getD
              (JVal.jobj [])
          let pr : JObj :=
            [("retry_info", retry_info),
             ("shufti_result", JVal.jobj result.toJObj),
             ("verification_url",
              match result.verification_url with
              | some u => JVal.jstr u
              | none => JVal.jnull)]
          (true,
           { db with records := db.records.map (fun r =>
               if r.id == rv.id then
                 { r with status := "pending", provider_response := some pr }
               else r) })

/-- The fields of `KYCStatusResponse` the claims are about (the
human-readable `message`, decline reasons and URL extraction of
`get_verification_status_by_user_id` are not modelled). -/
structure KYCStatusResp where
  verification_id : Nat
  status : String
  submitted_at : Nat
  reviewed_at : Option Nat
  is_completed : Bool
deriving DecidableEq

/-- `KYCService.get_verification_status_by_user_id` (lines 895–1029): the
newest record of the user, with `is_completed = reviewed_at is not None`
(line 1016); `.ok none` models the `return None` for a user with no
verifications. -/
def get_verification_status_by_user_id (uid : Nat) (db : DB) :
    Except (Nat × DB) (Option KYCStatusResp) :=
  match db.getUserById uid with
  | none => .error (404, db)
  | some _user =>
    match KYCRepository.get_user_verifications db uid with
    | [] => .ok none
    | latest :: _ =>
      .ok (some
        { verification_id := latest.id, status := latest.status,
          submitted_at := latest.submitted_at,
          reviewed_at := latest.reviewed_at,
          is_completed := latest.reviewed_at.isSome })

end KYCService

namespace ShuftiService

/-- `ShuftiService.verify_webhook` (`shufti_service.py` lines 291–412),
parametric in the hex-digest function `sha256Hex`, which stands for
`hashlib.sha256(utf8(·)).hexdigest()` of the Python standard library (an
external capability, not code of this repository).  `payload` is the raw
request body decoded as UTF-8 (`payload.decode("utf-8")`), `is_development`
is `config.is_development`.  The comparison
`hmac.compare_digest(calculated.lower(), signature.lower())` is a
constant-time string equality; constant-timeness itself is a timing property
outside this embedding. -/
def verify_webhook (sha256Hex : String → String) (secret_key : String)
    (is_development : Bool) (payload signature : String) : Bool :=
  if signature = "" ∨ signature.length < 8 then false
  else
    let secret_hash := sha256Hex secret_key
    let concatenated := payload ++ secret_hash
    let calculated_signature := sha256Hex concatenated
    let is_valid := pyLower calculated_signature == pyLower signature
    if !is_valid && is_development then true
    else is_valid

end ShuftiService

/-- Statuses the specification's data model allows for a verification
record. -/
def allowedStatuses : List String :=
  ["initiated", "pending", "verified", "declined", "cancelled", "error",
   "retry_pending"]

/-- Spec-side definition (for the refinement comparison of claim C2): the
precedence-ordered classification of §4.4 step 6, written from the spec's
words. -/
def specStatusClassification (event verification_status : String) : String :=
  if event = "verification.accepted" then "verified"
  else if event = "verification.declined" then "declined"
  else if event = "verification.cancelled" then "cancelled"
  else if pyStartsWith event "verification." then "pending"
  else if pyStartsWith event "request." then "pending"
  else if verification_status = "1" then "verified"
  else if verification_status = "0" then "declined"
  else if verification_status = "2" then "pending"
  else if verification_status = "3" then "cancelled"
  else "error"

/-- The retry-count the decline branch computes: the user's records with
status `declined`, counted over `get_user_verifications`. -/
def declinedRetryCount (db : DB) (uid : Nat) : Nat :=
  ((KYCRepository.get_user_verifications db uid).filter
    (fun x => x.status == "declined")).length

/-- The payload condition under which the decline branch schedules a retry
or blocks: a decline webhook carrying a `declined_reason`/`declined_codes`
key whose codes contain at least one retry-eligible code and no
retry-blocked code (claim C10's trigger). -/
def autoRetryTrigger (wd : WebhookData) : Prop :=
  (wd.event = "verification.declined"
      ∨ KYCService.webhookNewStatus wd.event wd.verification_status
          = "declined")
  ∧ (wd.declined_reason.isSome ∨ wd.declined_codes.isSome)
  ∧ (∃ c ∈ wd.declined_codes.getD [],
      c ∈ KYCService.retry_eligible_codes)
  ∧ (∀ c ∈ wd.declined_codes.getD [],
      c ∉ KYCService.retry_blocked_codes)

instance instDecAutoRetryTrigger (wd : WebhookData) :
    Decidable (autoRetryTrigger wd) := by
  unfold autoRetryTrigger
  infer_instance

/-- Records of a user in a non-terminal status. -/
def nonTerminalCount (db : DB) (uid : Nat) : Nat :=
  (db.records.filter (fun r => r.user_id == uid &&
    (r.status == "initiated" || r.status == "pending"
      || r.status == "retry_pending"))).length

-- Concrete fixtures used by counterexamples and witnesses.

/-- A user with a complete profile, neither verified nor blocked. -/
def userA : UserRec :=
  { id := 1, first_name := "Ann", last_name := "Lee", email := "ann@x.io",
    country := "US", is_verified := false, is_blocked := false }

/-- A pending verification record of `userA`. -/
def recPending : KYCRec :=
  { id := 0, user_id := 1, reference := "REF1", status := "pending",
    provider_response := some [("verification_url", JVal.jstr "u0")],
    submitted_at := 0, reviewed_at := none }

/-- A database with one user and one pending record. -/
def dbPending : DB :=
  { users := [userA], records := [recPending], next_id := 10, now := 5 }

/-- A database with one user and no records. -/
def dbNoRecords : DB :=
  { users := [userA], records := [], next_id := 10, now := 5 }

/-- A decline webhook for `REF1` with the retry-eligible code `SPDR07`. -/
def wdDeclineEligible : WebhookData :=
  { reference := "REF1", event := "verification.declined",
    verification_status := "", declined_reason := none,
    declined_codes := some ["SPDR07"], verification_data := none,
    service := none, info := none }

/-- A non-terminal (`request.pending`) webhook for `REF1`. -/
def wdRequestPending : WebhookData :=
  { reference := "REF1", event := "request.pending",
    verification_status := "", declined_reason := none,
    declined_codes := none, verification_data := none, service := none,
    info := none }

/-- The state after the decline webhook for `REF1` was processed once. -/
def dbAfterDecline : DB :=
  match KYCService.process_webhook "aaaa" wdDeclineEligible dbPending with
  | .ok d => d
  | .error e => e.2

/-- The state after the very same decline webhook was replayed. -/
def dbAfterReplay : DB :=
  match KYCService.process_webhook "bbbb" wdDeclineEligible dbAfterDecline with
  | .ok d => d
  | .error e => e.2

/-- A stand-in hex-digest function for concrete evaluations of
`verify_webhook` (the claims hold for every digest function). -/
def hashC : String → String := fun _ => "0123456789abcdef"

/-- The decline webhook with its reference blanked out. -/
def wdEmptyRef : WebhookData :=
  { wdDeclineEligible with reference := "" }

/-- The decline webhook pointed at a reference no record carries. -/
def wdUnknownRef : WebhookData :=
  { wdDeclineEligible with reference := "NOPE" }

/-- The state after the `request.pending` webhook was processed on
`dbPending`. -/
def dbAfterPendingWebhook : DB :=
  match KYCService.process_webhook "x" wdRequestPending dbPending with
  | .ok d => d
  | .error e => e.2

/-- An accepted (terminal) webhook for `REF1`. -/
def wdAccepted : WebhookData :=
  { reference := "REF1", event := "verification.accepted",
    verification_status := "", declined_reason := none,
    declined_codes := none, verification_data := none, service := none,
    info := none }

/-- The state after the accepted webhook was processed on `dbPending`. -/
def dbAfterVerified : DB :=
  match KYCService.process_webhook "x" wdAccepted dbPending with
  | .ok d => d
  | .error e => e.2

/-- A provider 200-response whose event is `request.invalid` (a real Shufti
event vocabulary member not special-cased by the code). -/
def shuftiInvalidRes : ShuftiResult :=
  { event := "request.invalid", verification_url := some "u" }

/-- A provider 200-response with the usual `request.pending` event. -/
def shuftiPendingRes : ShuftiResult :=
  { event := "request.pending", verification_url := some "u" }

/-- The state after starting a verification whose provider result carried
`request.invalid`. -/
def dbAfterBadStart : DB :=
  match KYCService.start_verification (.ok shuftiInvalidRes) "KYC_X" 1
      dbNoRecords with
  | .ok p => p.2
  | .error e => e.2

/-- The state after starting a verification whose provider result carried
`request.pending`. -/
def dbAfterGoodStart : DB :=
  match KYCService.start_verification (.ok shuftiPendingRes) "KYC_X" 1
      dbNoRecords with
  | .ok p => p.2
  | .error e => e.2

/-- A first declined record of `userA`. -/
def recDeclined1 : KYCRec :=
  { id := 1, user_id := 1, reference := "D1", status := "declined",
    provider_response := some [], submitted_at := 1, reviewed_at := some 1 }

/-- A second declined record of `userA`. -/
def recDeclined2 : KYCRec :=
  { id := 2, user_id := 1, reference := "D2", status := "declined",
    provider_response := some [], submitted_at := 2, reviewed_at := some 2 }

/-- The pending record a third decline webhook will target. -/
def recPending3 : KYCRec :=
  { id := 3, user_id := 1, reference := "REF3", status := "pending",
    provider_response := some [], submitted_at := 3, reviewed_at := none }

/-- A database in which `userA` has already collected two declined
records. -/
def dbExhausted : DB :=
  { users := [userA], records := [recDeclined1, recDeclined2, recPending3],
    next_id := 10, now := 6 }

/-- The eligible decline webhook aimed at `REF3`. -/
def wdDecline3 : WebhookData :=
  { wdDeclineEligible with reference := "REF3" }

/-- The state after the third eligible decline was processed. -/
def dbAfterThirdDecline : DB :=
  match KYCService.process_webhook "cccc" wdDecline3 dbExhausted with
  | .ok d => d
  | .error e => e.2

namespace KYCFacts

theorem updateRecord_users (db : DB) (rid : Nat) (st : String)
    (rv : Option Nat) (pr : Option JObj) :
    (db.updateRecord rid st rv pr).users = db.users := rfl

theorem createRecord_users (db : DB) (uid : Nat) (ref st : String)
    (pr : Option JObj) : (db.createRecord uid ref st pr).users = db.users :=
  rfl

theorem setUserVerified_records (db : DB) (uid : Nat) (b : Bool) :
    (db.setUserVerified uid b).records = db.records := rfl

theorem setUserBlocked_records (db : DB) (uid : Nat) (b : Bool) :
    (db.setUserBlocked uid b).records = db.records := rfl

theorem upd_user_status_records (uid : Nat) (st : String) (db : DB) :
    ((KYCService._update_user_verification_status uid st db).2).records
      = db.records := by
  unfold KYCService._update_user_verification_status
  cases hx : db.getUserById uid with
  | none => rfl
  | some u => dsimp only; split <;> rfl

theorem scheduleRetry_records (fresh : String) (v : KYCRec) (rj : JVal)
    (dc : List String) (rc : Nat) (ed : JObj) (db : DB) :
    ∃ tail, (KYCService.scheduleRetry fresh v rj dc rc ed db).2.records
      = db.records ++ tail := by
  unfold KYCService.scheduleRetry
  cases hx : db.getUserById v.user_id with
  | none => exact ⟨[], (List.append_nil _).symm⟩
  | some u => exact ⟨_, rfl⟩

theorem blockAfterMaxRetries_records (v : KYCRec) (ed : JObj) (db : DB) :
    (KYCService.blockAfterMaxRetries v ed db).2.records = db.records := by
  unfold KYCService.blockAfterMaxRetries
  cases hx : db.getUserById v.user_id with
  | none => rfl
  | some u => dsimp only; split <;> rfl

theorem declineActive_records (fresh : String) (wd : WebhookData)
    (v : KYCRec) (ed : JObj) (db : DB) :
    ∃ tail, (KYCService.declineActive fresh wd v ed db).2.records
      = db.records ++ tail := by
  unfold KYCService.declineActive
  dsimp only
  split
  · split
    · exact scheduleRetry_records ..
    · exact ⟨[], by rw [blockAfterMaxRetries_records, List.append_nil]⟩
  · exact ⟨[], (List.append_nil _).symm⟩

theorem declineRetryStep_records (fresh : String) (wd : WebhookData)
    (v : KYCRec) (ns : String) (ed : JObj) (db : DB) :
    ∃ tail, (KYCService.declineRetryStep fresh wd v ns ed db).2.records
      = db.records ++ tail := by
  unfold KYCService.declineRetryStep
  split
  · exact declineActive_records ..
  · exact ⟨[], (List.append_nil _).symm⟩

/-- On a known, non-empty reference, `process_webhook` succeeds and commits
exactly `webhookPostState`. -/
theorem process_webhook_eq_ok (fresh : String) (wd : WebhookData) (db : DB)
    (v : KYCRec) (href : wd.reference ≠ "")
    (hv : KYCRepository.find_by_reference db wd.reference = some v) :
    KYCService.process_webhook fresh wd db
      = .ok (KYCService.webhookPostState fresh wd v db) := by
  have hv' : db.records.find? (fun r => r.reference == wd.reference)
      = some v := hv
  have hmem : v ∈ db.records := List.mem_of_find?_eq_some hv'
  obtain ⟨tail, htail⟩ := declineRetryStep_records fresh wd v
    (KYCService.webhookNewStatus wd.event wd.verification_status)
    (KYCService.webhookBaseData wd v) db
  have hany : ((KYCService.declineRetryStep fresh wd v
      (KYCService.webhookNewStatus wd.event wd.verification_status)
      (KYCService.webhookBaseData wd v) db).2.records.any
        (fun r => r.id == v.id)) = true := by
    rw [htail]
    exact List.any_eq_true.mpr ⟨v, List.mem_append_left _ hmem, by simp⟩
  simp only [KYCService.process_webhook, href, if_false, hv]
  simp only [hany, if_true]
  rfl

end KYCFacts

namespace KYCFacts

/-- `find?` by id over an id-preserving row transformation. -/
theorem find?_id_map (users : List UserRec) (g : UserRec → UserRec)
    (hg : ∀ u, (g u).id = u.id) (uid : Nat) :
    (users.map g).find? (fun u => u.id == uid)
      = (users.find? (fun u => u.id == uid)).map g := by
  rw [List.find?_map]
  have hp : ((fun u : UserRec => u.id == uid) ∘ g)
      = fun u : UserRec => u.id == uid := by
    funext u
    simp [Function.comp, hg]
  rw [hp]

theorem setUserVerified_getUser (d : DB) (uid : Nat) (b : Bool)
    (uid' : Nat) :
    (d.setUserVerified uid b).getUserById uid'
      = (d.getUserById uid').map
          (fun u => if u.id == uid then { u with is_verified := b } else u) := by
  unfold DB.setUserVerified DB.getUserById
  exact find?_id_map d.users _ (fun u => by split <;> rfl) uid'

theorem setUserBlocked_getUser (d : DB) (uid : Nat) (b : Bool)
    (uid' : Nat) :
    (d.setUserBlocked uid b).getUserById uid'
      = (d.getUserById uid').map
          (fun u => if u.id == uid then { u with is_blocked := b } else u) := by
  unfold DB.setUserBlocked DB.getUserById
  exact find?_id_map d.users _ (fun u => by split <;> rfl) uid'

theorem getUserById_id (d : DB) (uid : Nat) (u : UserRec)
    (h : d.getUserById uid = some u) : u.id = uid := by
  have h' : d.users.find? (fun x => x.id == uid) = some u := h
  have := List.find?_some h'
  simpa using this

theorem setUserVerified_getUser_ne (d : DB) (uid uid' : Nat) (b : Bool)
    (h : uid' ≠ uid) :
    (d.setUserVerified uid b).getUserById uid' = d.getUserById uid' := by
  rw [setUserVerified_getUser]
  cases hx : d.getUserById uid' with
  | none => rfl
  | some u =>
    have hid : u.id = uid' := getUserById_id d uid' u hx
    simp [hid, h]

theorem setUserBlocked_getUser_ne (d : DB) (uid uid' : Nat) (b : Bool)
    (h : uid' ≠ uid) :
    (d.setUserBlocked uid b).getUserById uid' = d.getUserById uid' := by
  rw [setUserBlocked_getUser]
  cases hx : d.getUserById uid' with
  | none => rfl
  | some u =>
    have hid : u.id = uid' := getUserById_id d uid' u hx
    simp [hid, h]

theorem setUserVerified_getUser_self_iv (d : DB) (uid : Nat) (b : Bool) :
    ((d.setUserVerified uid b).getUserById uid).map (fun x => x.is_verified)
      = (d.getUserById uid).map (fun _ => b) := by
  rw [setUserVerified_getUser]
  cases hx : d.getUserById uid with
  | none => rfl
  | some u =>
    have hid : u.id = uid := getUserById_id d uid u hx
    simp [hid]

theorem setUserBlocked_getUser_self_ib (d : DB) (uid : Nat) (b : Bool) :
    ((d.setUserBlocked uid b).getUserById uid).map (fun x => x.is_blocked)
      = (d.getUserById uid).map (fun _ => b) := by
  rw [setUserBlocked_getUser]
  cases hx : d.getUserById uid with
  | none => rfl
  | some u =>
    have hid : u.id = uid := getUserById_id d uid u hx
    simp [hid]

theorem setUserVerified_getUser_ib (d : DB) (uid : Nat) (b : Bool)
    (uid' : Nat) :
    ((d.setUserVerified uid b).getUserById uid').map (fun x => x.is_blocked)
      = (d.getUserById uid').map (fun x => x.is_blocked) := by
  rw [setUserVerified_getUser]
  cases hx : d.getUserById uid' with
  | none => rfl
  | some u => by_cases h : u.id = uid <;> simp [h]

theorem setUserBlocked_getUser_iv (d : DB) (uid : Nat) (b : Bool)
    (uid' : Nat) :
    ((d.setUserBlocked uid b).getUserById uid').map (fun x => x.is_verified)
      = (d.getUserById uid').map (fun x => x.is_verified) := by
  rw [setUserBlocked_getUser]
  cases hx : d.getUserById uid' with
  | none => rfl
  | some u => by_cases h : u.id = uid <;> simp [h]

end KYCFacts

namespace KYCFacts

theorem getUserById_congr_users (d1 d2 : DB) (h : d1.users = d2.users)
    (uid : Nat) : d1.getUserById uid = d2.getUserById uid := by
  unfold DB.getUserById
  rw [h]

theorem upd_user_status_getUser_ne (uid : Nat) (st : String) (d : DB)
    (uid' : Nat) (h : uid' ≠ uid) :
    ((KYCService._update_user_verification_status uid st d).2).getUserById
      uid' = d.getUserById uid' := by
  unfold KYCService._update_user_verification_status
  cases hx : d.getUserById uid with
  | none => rfl
  | some u =>
    dsimp only
    split
    · exact setUserVerified_getUser_ne d uid uid' _ h
    · rfl

theorem upd_user_status_getUser_self_iv (uid : Nat) (st : String) (d : DB)
    (u : UserRec) (hu : d.getUserById uid = some u) :
    (((KYCService._update_user_verification_status uid st d).2).getUserById
        uid).map (fun x => x.is_verified) = some (st == "verified") := by
  unfold KYCService._update_user_verification_status
  simp only [hu]
  split
  · rw [setUserVerified_getUser_self_iv, hu]
    rfl
  · next hskip =>
    simp only [bne, Bool.not_eq_true'] at hskip
    rw [hu]
    simpa using hskip

theorem upd_user_status_getUser_ib (uid : Nat) (st : String) (d : DB)
    (uid' : Nat) :
    (((KYCService._update_user_verification_status uid st d).2).getUserById
        uid').map (fun x => x.is_blocked)
      = (d.getUserById uid').map (fun x => x.is_blocked) := by
  unfold KYCService._update_user_verification_status
  cases hx : d.getUserById uid with
  | none => rfl
  | some u =>
    dsimp only
    split
    · exact setUserVerified_getUser_ib d uid _ uid'
    · rfl

theorem scheduleRetry_users (fresh : String) (v : KYCRec) (rj : JVal)
    (dc : List String) (rc : Nat) (ed : JObj) (db : DB) :
    (KYCService.scheduleRetry fresh v rj dc rc ed db).2.users = db.users := by
  unfold KYCService.scheduleRetry
  cases hx : db.getUserById v.user_id <;> rfl

theorem blockAfterMaxRetries_users_iv (v : KYCRec) (ed : JObj) (db : DB)
    (uid : Nat) :
    ((KYCService.blockAfterMaxRetries v ed db).2.getUserById uid).map
        (fun x => x.is_verified)
      = (db.getUserById uid).map (fun x => x.is_verified) := by
  unfold KYCService.blockAfterMaxRetries
  cases hx : db.getUserById v.user_id with
  | none => rfl
  | some u =>
    dsimp only
    split
    · rfl
    · exact setUserBlocked_getUser_iv db v.user_id true uid

theorem blockAfterMaxRetries_getUser_ne (v : KYCRec) (ed : JObj) (db : DB)
    (uid : Nat) (h : uid ≠ v.user_id) :
    (KYCService.blockAfterMaxRetries v ed db).2.getUserById uid
      = db.getUserById uid := by
  unfold KYCService.blockAfterMaxRetries
  cases hx : db.getUserById v.user_id with
  | none => rfl
  | some u =>
    dsimp only
    split
    · rfl
    · exact setUserBlocked_getUser_ne db v.user_id uid true h

theorem blockAfterMaxRetries_getUser_self_ib (v : KYCRec) (ed : JObj)
    (db : DB) (u : UserRec) (hu : db.getUserById v.user_id = some u) :
    ((KYCService.blockAfterMaxRetries v ed db).2.getUserById
        v.user_id).map (fun x => x.is_blocked) = some true := by
  unfold KYCService.blockAfterMaxRetries
  simp only [hu]
  split
  · next hb => rw [hu]; simpa using hb
  · rw [setUserBlocked_getUser_self_ib, hu]
    rfl

end KYCFacts

namespace KYCFacts

theorem declineActive_users_iv (fresh : String) (wd : WebhookData)
    (v : KYCRec) (ed : JObj) (db : DB) (uid : Nat) :
    ((KYCService.declineActive fresh wd v ed db).2.getUserById uid).map
        (fun x => x.is_verified)
      = (db.getUserById uid).map (fun x => x.is_verified) := by
  unfold KYCService.declineActive
  dsimp only
  split
  · split
    · rw [getUserById_congr_users _ db (scheduleRetry_users ..) uid]
    · exact blockAfterMaxRetries_users_iv ..
  · rfl

theorem declineRetryStep_users_iv (fresh : String) (wd : WebhookData)
    (v : KYCRec) (ns : String) (ed : JObj) (db : DB) (uid : Nat) :
    ((KYCService.declineRetryStep fresh wd v ns ed db).2.getUserById
        uid).map (fun x => x.is_verified)
      = (db.getUserById uid).map (fun x => x.is_verified) := by
  unfold KYCService.declineRetryStep
  split
  · exact declineActive_users_iv ..
  · rfl

theorem updateRecord_getUser (d : DB) (rid : Nat) (st : String)
    (rv : Option Nat) (pr : Option JObj) (uid : Nat) :
    (d.updateRecord rid st rv pr).getUserById uid = d.getUserById uid := rfl

/-- Projection of `updateRecord` to `(reference, status)` pairs. -/
theorem updateRecord_ref_status (d : DB) (rid : Nat) (st : String)
    (rv : Option Nat) (pr : Option JObj) :
    (d.updateRecord rid st rv pr).records.map
        (fun r => (r.reference, r.status))
      = d.records.map
          (fun r => (r.reference, if r.id == rid then st else r.status)) := by
  unfold DB.updateRecord
  dsimp only
  rw [List.map_map]
  congr 1
  funext r
  by_cases h : r.id = rid <;> simp [h]

/-- Projection of `updateRecord` to references. -/
theorem updateRecord_refs (d : DB) (rid : Nat) (st : String)
    (rv : Option Nat) (pr : Option JObj) :
    (d.updateRecord rid st rv pr).records.map (fun r => r.reference)
      = d.records.map (fun r => r.reference) := by
  unfold DB.updateRecord
  dsimp only
  rw [List.map_map]
  congr 1
  funext r
  by_cases h : r.id = rid <;> simp [h]

theorem upd_user_status_snd_records (uid : Nat) (st : String) (d : DB) :
    ((KYCService._update_user_verification_status uid st d).2).records
      = d.records := upd_user_status_records uid st d

/-- `webhookPostState` updates the target row of the post-decline-step
database in place. -/
theorem webhookPostState_records (fresh : String) (wd : WebhookData)
    (v : KYCRec) (db : DB) :
    (KYCService.webhookPostState fresh wd v db).records
      = ((KYCService.declineRetryStep fresh wd v
            (KYCService.webhookNewStatus wd.event wd.verification_status)
            (KYCService.webhookBaseData wd v) db).2.updateRecord v.id
          (KYCService.webhookNewStatus wd.event wd.verification_status)
          (some (KYCService.declineRetryStep fresh wd v
            (KYCService.webhookNewStatus wd.event wd.verification_status)
            (KYCService.webhookBaseData wd v) db).2.now)
          (some (KYCService.webhookFinalData wd
            (KYCService.declineRetryStep fresh wd v
              (KYCService.webhookNewStatus wd.event wd.verification_status)
              (KYCService.webhookBaseData wd v) db).1))).records := by
  unfold KYCService.webhookPostState
  dsimp only
  split
  · rw [upd_user_status_records]
  · rfl

end KYCFacts

namespace KYCFacts

theorem updateRecord_mem_status (d : DB) (rid : Nat) (st : String)
    (rv : Option Nat) (pr : Option JObj) (r : KYCRec)
    (hr : r ∈ (d.updateRecord rid st rv pr).records) (hid : r.id = rid) :
    r.status = st := by
  unfold DB.updateRecord at hr
  dsimp only at hr
  obtain ⟨a, ha, hfa⟩ := List.mem_map.mp hr
  by_cases h : a.id = rid
  · rw [← hfa]
    simp [h]
  · rw [← hfa] at hid
    simp [h] at hid

/-- Every status the webhook classification can produce is one of the seven
documented values. -/
theorem webhookNewStatus_mem_allowed (e v : String) :
    KYCService.webhookNewStatus e v ∈ allowedStatuses := by
  unfold KYCService.webhookNewStatus KYCService.status_map_get
  split_ifs <;> decide

/-- The in-code classification chain equals the spec's
precedence-ordered classification (the code's extra `request.pending` test
is subsumed by its `request.` prefix test). -/
theorem webhookNewStatus_eq_spec (e v : String) :
    KYCService.webhookNewStatus e v = specStatusClassification e v := by
  by_cases h : e = "request.pending"
  · subst h
    rfl
  · unfold KYCService.webhookNewStatus specStatusClassification
      KYCService.status_map_get
    simp only [h, if_false]

end KYCFacts

/-- C2: for every webhook payload with a known reference, the status written
to the verification record is determined from the `(event,
verification_status)` pair by the spec's precedence: `verification.accepted`
→ verified, `verification.declined` → declined, `verification.cancelled` →
cancelled, other `verification.*` → pending, `request.*` → pending, else the
numeric map `"1"`→verified, `"0"`→declined, `"2"`→pending, `"3"`→cancelled,
else error. -/
theorem C2_status_classification (fresh : String) (wd : WebhookData)
    (db db' : DB) (v : KYCRec)
    (hv : KYCRepository.find_by_reference db wd.reference = some v)
    (hok : KYCService.process_webhook fresh wd db = .ok db') :
    ∀ r ∈ db'.records, r.id = v.id →
      r.status = specStatusClassification wd.event wd.verification_status := by
  have href : wd.reference ≠ "" := by
    intro h
    unfold KYCService.process_webhook at hok
    simp [h] at hok
  rw [KYCFacts.process_webhook_eq_ok fresh wd db v href hv] at hok
  have hdb : KYCService.webhookPostState fresh wd v db = db' := by
    injection hok
  subst hdb
  intro r hr hrid
  rw [KYCFacts.webhookPostState_records] at hr
  rw [KYCFacts.updateRecord_mem_status _ _ _ _ _ r hr hrid]
  exact KYCFacts.webhookNewStatus_eq_spec wd.event wd.verification_status

/-- Witness for C2: the `request.pending` webhook on the concrete pending
record classifies to `pending`. -/
theorem C2_status_classification_witness :
    KYCRepository.find_by_reference dbPending wdRequestPending.reference
        = some recPending
    ∧ ∀ r ∈ dbAfterPendingWebhook.records, r.id = recPending.id →
        r.status = specStatusClassification wdRequestPending.event
          wdRequestPending.verification_status :=
  ⟨rfl, C2_status_classification "x" wdRequestPending dbPending
    dbAfterPendingWebhook recPending rfl rfl⟩

/-- C6: a webhook without a reference is rejected with a 400 and a webhook
whose reference matches no record is rejected with a 404; in both cases the
database is exactly the input one — nothing is created or modified. -/
theorem C6_reject_missing_or_unknown_reference (fresh : String)
    (wd : WebhookData) (db : DB) :
    (wd.reference = "" →
      KYCService.process_webhook fresh wd db = .error (400, db))
    ∧ (wd.reference ≠ "" →
        KYCRepository.find_by_reference db wd.reference = none →
        KYCService.process_webhook fresh wd db = .error (404, db)) := by
  constructor
  · intro h
    unfold KYCService.process_webhook
    simp [h]
  · intro h hn
    unfold KYCService.process_webhook
    simp [h, hn]

/-- Witness for C6: the blank-reference webhook yields 400 and the unknown
reference yields 404 on the concrete database, which is returned
unchanged. -/
theorem C6_reject_missing_or_unknown_reference_witness :
    KYCService.process_webhook "x" wdEmptyRef dbPending
        = .error (400, dbPending)
    ∧ KYCService.process_webhook "x" wdUnknownRef dbPending
        = .error (404, dbPending) :=
  ⟨(C6_reject_missing_or_unknown_reference "x" wdEmptyRef dbPending).1 rfl,
   (C6_reject_missing_or_unknown_reference "x" wdUnknownRef dbPending).2
     (by decide) rfl⟩

/-- C5: when a processed webhook's new status is terminal (`verified` or
`declined`), the owning user's `is_verified` becomes `new status ==
"verified"` (the write being skipped when already correct) and no other
user's flag changes; when the new status is anything else, every user's
`is_verified` — including one set to true by an earlier verified webhook on
another record — is left unchanged. -/
theorem C5_terminal_propagation_only (fresh : String) (wd : WebhookData)
    (db db' : DB) (v : KYCRec) (u : UserRec)
    (hv : KYCRepository.find_by_reference db wd.reference = some v)
    (hu : db.getUserById v.user_id = some u)
    (hok : KYCService.process_webhook fresh wd db = .ok db') :
    ((KYCService.webhookNewStatus wd.event wd.verification_status = "verified"
        ∨ KYCService.webhookNewStatus wd.event wd.verification_status
            = "declined") →
      (db'.getUserById v.user_id).map (fun x => x.is_verified)
          = some (KYCService.webhookNewStatus wd.event wd.verification_status
              == "verified")
      ∧ ∀ uid, uid ≠ v.user_id →
          (db'.getUserById uid).map (fun x => x.is_verified)
            = (db.getUserById uid).map (fun x => x.is_verified))
    ∧ (¬(KYCService.webhookNewStatus wd.event wd.verification_status
            = "verified"
        ∨ KYCService.webhookNewStatus wd.event wd.verification_status
            = "declined") →
        ∀ uid, (db'.getUserById uid).map (fun x => x.is_verified)
          = (db.getUserById uid).map (fun x => x.is_verified)) := by
  have href : wd.reference ≠ "" := by
    intro h
    unfold KYCService.process_webhook at hok
    simp [h] at hok
  rw [KYCFacts.process_webhook_eq_ok fresh wd db v href hv] at hok
  have hdb : KYCService.webhookPostState fresh wd v db = db' := by
    injection hok
  subst hdb
  unfold KYCService.webhookPostState
  dsimp only
  constructor
  · intro hterm
    rw [if_pos hterm]
    constructor
    · have hproj : (((KYCService.declineRetryStep fresh wd v
          (KYCService.webhookNewStatus wd.event wd.verification_status)
          (KYCService.webhookBaseData wd v) db).2.updateRecord v.id
            (KYCService.webhookNewStatus wd.event wd.verification_status)
            (some (KYCService.declineRetryStep fresh wd v
              (KYCService.webhookNewStatus wd.event wd.verification_status)
              (KYCService.webhookBaseData wd v) db).2.now)
            (some (KYCService.webhookFinalData wd
              (KYCService.declineRetryStep fresh wd v
                (KYCService.webhookNewStatus wd.event wd.verification_status)
                (KYCService.webhookBaseData wd v) db).1))).getUserById
              v.user_id).map (fun x => x.is_verified)
          = some u.is_verified := by
        rw [KYCFacts.updateRecord_getUser,
          KYCFacts.declineRetryStep_users_iv, hu]
        rfl
      cases hx : ((KYCService.declineRetryStep fresh wd v
          (KYCService.webhookNewStatus wd.event wd.verification_status)
          (KYCService.webhookBaseData wd v) db).2.updateRecord v.id
            (KYCService.webhookNewStatus wd.event wd.verification_status)
            (some (KYCService.declineRetryStep fresh wd v
              (KYCService.webhookNewStatus wd.event wd.verification_status)
              (KYCService.webhookBaseData wd v) db).2.now)
            (some (KYCService.webhookFinalData wd
              (KYCService.declineRetryStep fresh wd v
                (KYCService.webhookNewStatus wd.event wd.verification_status)
                (KYCService.webhookBaseData wd v) db).1))).getUserById
              v.user_id with
      | none => rw [hx] at hproj; simp at hproj
      | some u3 =>
        exact KYCFacts.upd_user_status_getUser_self_iv v.user_id
          (KYCService.webhookNewStatus wd.event wd.verification_status)
          _ u3 hx
    · intro uid hne
      rw [KYCFacts.upd_user_status_getUser_ne _ _ _ _ hne,
        KYCFacts.updateRecord_getUser, KYCFacts.declineRetryStep_users_iv]
  · intro hterm
    rw [if_neg hterm]
    intro uid
    rw [KYCFacts.updateRecord_getUser, KYCFacts.declineRetryStep_users_iv]

/-- Witness for C5: on the concrete pending record, the accepted webhook
sets the owner's `is_verified` to true. -/
theorem C5_terminal_propagation_only_witness :
    KYCRepository.find_by_reference dbPending wdAccepted.reference
        = some recPending
    ∧ (dbAfterVerified.getUserById 1).map (fun x => x.is_verified)
        = some true := by
  refine ⟨rfl, ?_⟩
  have h := C5_terminal_propagation_only "x" wdAccepted dbPending
    dbAfterVerified recPending userA rfl rfl rfl
  exact (h.1 (Or.inl rfl)).1

/-- Counterexample for C3: `verify_webhook` is not "true iff the signature
equals the expected digest".  In development mode a well-formed wrong
signature is accepted, and in production mode an upper-cased copy of the
digest is accepted although it differs from the digest. -/
theorem C3_counterexample_not_iff_digest :
    (ShuftiService.verify_webhook hashC "sk" true "p" "zzzzzzzz" = true
      ∧ "zzzzzzzz" ≠ hashC ("p" ++ hashC "sk"))
    ∧ (ShuftiService.verify_webhook hashC "sk" false "p" "0123456789ABCDEF"
          = true
      ∧ "0123456789ABCDEF" ≠ hashC ("p" ++ hashC "sk")) := by
  refine ⟨⟨?_, ?_⟩, ?_, ?_⟩ <;> decide

/-- C3 (amended): an empty or shorter-than-8-characters signature makes
`verify_webhook` return false (before any digest is computed); otherwise in
development mode it returns true regardless of the signature; otherwise (in
production mode) it returns true iff the signature equals the hex digest of
the payload concatenated with the hex digest of the secret key, compared
case-insensitively; it returns a boolean rather than raising. -/
theorem C3_verify_webhook_amended (hash : String → String) (secret : String)
    (dev : Bool) (payload sig : String) :
    ((sig = "" ∨ sig.length < 8) →
      ShuftiService.verify_webhook hash secret dev payload sig = false)
    ∧ (¬(sig = "" ∨ sig.length < 8) → dev = true →
        ShuftiService.verify_webhook hash secret dev payload sig = true)
    ∧ (¬(sig = "" ∨ sig.length < 8) → dev = false →
        (ShuftiService.verify_webhook hash secret dev payload sig = true
          ↔ pyLower (hash (payload ++ hash secret)) = pyLower sig)) := by
  unfold ShuftiService.verify_webhook
  refine ⟨?_, ?_, ?_⟩
  · intro h
    simp [h]
  · intro h hdev
    subst hdev
    by_cases hvld : pyLower (hash (payload ++ hash secret)) == pyLower sig
      <;> simp [h, hvld]
  · intro h hdev
    subst hdev
    by_cases hvld : pyLower (hash (payload ++ hash secret)) == pyLower sig
      <;> simp [h, hvld]
      <;> simpa using hvld

/-- Witness for C3's amended statement: a concrete production-mode check of
the correct digest succeeds. -/
theorem C3_verify_webhook_amended_witness :
    ¬("0123456789abcdef" = ""
        ∨ ("0123456789abcdef" : String).length < 8)
    ∧ ShuftiService.verify_webhook hashC "sk" false "p" "0123456789abcdef"
        = true := by
  refine ⟨by decide, ?_⟩
  exact ((C3_verify_webhook_amended hashC "sk" false "p"
    "0123456789abcdef").2.2 (by decide) rfl).mpr (by decide)

/-- C4 is a code bug: with an existing pending record,
`start_verification_by_user_id` evaluates
`existing_verification.provider_response.get("verification_url")` on a
`Text` column (a Python `str`), raising `AttributeError`, which the generic
handler converts to an HTTP 500 — instead of returning the existing
record's id, reference and URL.  The database is left unchanged and no
provider call is made (the error is raised before either). -/
theorem C4_pending_start_returns_500 :
    KYCRepository.find_pending_verification_by_user dbPending 1
        = some recPending
    ∧ KYCService.start_verification_by_user_id
        (Except.ok { event := "request.pending",
                     verification_url := some "u" })
        "KYC_NEW" 1 dbPending
      = .error (500, dbPending) :=
  ⟨rfl, rfl⟩

/-- C7 is a code bug: replaying the same decline webhook for an
already-declined record schedules a second auto-retry, leaving the user
with two `retry_pending` (non-terminal) records at once — the "at most one
non-terminal record per user" invariant fails under webhook replay. -/
theorem C7_replayed_webhook_duplicates_retry_pending :
    KYCService.process_webhook "aaaa" wdDeclineEligible dbPending
        = .ok dbAfterDecline
    ∧ nonTerminalCount dbAfterDecline 1 = 1
    ∧ KYCService.process_webhook "bbbb" wdDeclineEligible dbAfterDecline
        = .ok dbAfterReplay
    ∧ nonTerminalCount dbAfterReplay 1 = 2
    ∧ dbAfterReplay.records.map (fun r => (r.reference, r.status))
        = [("REF1", "declined"), ("RETRY_1_REF1_aaaa", "retry_pending"),
           ("RETRY_2_REF1_bbbb", "retry_pending")] := by
  refine ⟨rfl, by decide, rfl, by decide, by decide⟩

namespace KYCFacts

theorem updateRecord_updater_id (rid : Nat) (st : String) (rv : Option Nat)
    (pr : Option JObj) (a : KYCRec) :
    ((if a.id == rid then
        { a with status := st, reviewed_at := rv,
                 provider_response := pr }
      else a) : KYCRec).id = a.id := by
  split <;> rfl

theorem updateRecord_mem_reviewed (d : DB) (rid : Nat) (st : String)
    (rv : Option Nat) (pr : Option JObj) (r : KYCRec)
    (hr : r ∈ (d.updateRecord rid st rv pr).records) (hid : r.id = rid) :
    r.reviewed_at = rv := by
  unfold DB.updateRecord at hr
  dsimp only at hr
  obtain ⟨a, ha, hfa⟩ := List.mem_map.mp hr
  by_cases h : a.id = rid
  · rw [← hfa]
    simp [h]
  · rw [← hfa] at hid
    simp [h] at hid

/-- The decline step either keeps the record table or appends exactly one
fresh `retry_pending` row with a null `reviewed_at`. -/
theorem declineRetryStep_records_strong (fresh : String) (wd : WebhookData)
    (v : KYCRec) (ns : String) (ed : JObj) (db : DB) :
    (KYCService.declineRetryStep fresh wd v ns ed db).2.records = db.records
    ∨ ∃ nr, (KYCService.declineRetryStep fresh wd v ns ed db).2.records
          = db.records ++ [nr]
        ∧ nr.reviewed_at = none ∧ nr.status = "retry_pending"
        ∧ nr.id = db.next_id := by
  unfold KYCService.declineRetryStep
  split
  · unfold KYCService.declineActive
    dsimp only
    split
    · split
      · unfold KYCService.scheduleRetry
        cases hx : db.getUserById v.user_id with
        | none => left; rfl
        | some u => right; exact ⟨_, rfl, rfl, rfl, rfl⟩
      · left
        exact blockAfterMaxRetries_records ..
    · left; rfl
  · left; rfl

end KYCFacts

/-- Counterexample for C8: the claim says a webhook classified as
non-terminal (`pending`) leaves `reviewed_at` null, but processing the
`request.pending` webhook on a record whose `reviewed_at` is null writes
`reviewed_at = now` anyway. -/
theorem C8_counterexample_pending_sets_reviewed_at :
    KYCService.webhookNewStatus wdRequestPending.event
        wdRequestPending.verification_status = "pending"
    ∧ recPending.reviewed_at = none
    ∧ KYCService.process_webhook "x" wdRequestPending dbPending
        = .ok dbAfterPendingWebhook
    ∧ dbAfterPendingWebhook.records.map (fun r => (r.id, r.reviewed_at))
        = [(0, some 5)] := by
  refine ⟨rfl, rfl, rfl, by decide⟩

/-- C8 (amended): `reviewed_at` is null from creation until the FIRST
webhook is processed for the record, is set (to the processing time) by
every processed webhook — terminal or not — and `getStatus` reports
`is_completed = (reviewed_at is not null)`. -/
theorem C8_reviewed_at_set_by_any_webhook (fresh : String)
    (wd : WebhookData) (db db' : DB) (v : KYCRec)
    (hv : KYCRepository.find_by_reference db wd.reference = some v)
    (hok : KYCService.process_webhook fresh wd db = .ok db') :
    (∀ r ∈ db'.records, r.id = v.id → r.reviewed_at ≠ none)
    ∧ (∀ r ∈ db'.records, r.id ∉ db.records.map (fun x => x.id) →
        r.reviewed_at = none)
    ∧ (∀ prov ref uid d d' resp,
        KYCService.start_verification prov ref uid d = .ok (resp, d') →
        ∀ r ∈ d'.records, r.id ∉ d.records.map (fun x => x.id) →
          r.reviewed_at = none)
    ∧ (∀ uid d s,
        KYCService.get_verification_status_by_user_id uid d = .ok (some s) →
        s.is_completed = s.reviewed_at.isSome) := by
  have href : wd.reference ≠ "" := by
    intro h
    unfold KYCService.process_webhook at hok
    simp [h] at hok
  rw [KYCFacts.process_webhook_eq_ok fresh wd db v href hv] at hok
  have hdb : KYCService.webhookPostState fresh wd v db = db' := by
    injection hok
  subst hdb
  have hv' : db.records.find? (fun r => r.reference == wd.reference)
      = some v := hv
  have hvmem : v ∈ db.records := List.mem_of_find?_eq_some hv'
  refine ⟨?_, ?_, ?_, ?_⟩
  · intro r hr hrid
    rw [KYCFacts.webhookPostState_records] at hr
    rw [KYCFacts.updateRecord_mem_reviewed _ _ _ _ _ r hr hrid]
    simp
  · intro r hr hnotin
    rw [KYCFacts.webhookPostState_records] at hr
    unfold DB.updateRecord at hr
    dsimp only at hr
    obtain ⟨a, ha, hfa⟩ := List.mem_map.mp hr
    have hrid : r.id = a.id := by
      rw [← hfa]
      exact KYCFacts.updateRecord_updater_id ..
    rcases KYCFacts.declineRetryStep_records_strong fresh wd v
        (KYCService.webhookNewStatus wd.event wd.verification_status)
        (KYCService.webhookBaseData wd v) db with hcase | ⟨nr, hcase, hnrrev,
          hnrst, hnrid⟩
    · rw [hcase] at ha
      refine absurd ?_ hnotin
      rw [hrid]
      exact List.mem_map_of_mem (fun x => x.id) ha
    · rw [hcase] at ha
      rcases List.mem_append.mp ha with ha | ha
      · refine absurd ?_ hnotin
        rw [hrid]
        exact List.mem_map_of_mem (fun x => x.id) ha
      · have hanr : a = nr := by simpa using ha
        subst hanr
        by_cases hid : a.id = v.id
        · exfalso
          apply hnotin
          rw [hrid, hid]
          exact List.mem_map_of_mem (fun x => x.id) hvmem
        · rw [← hfa]
          simp [hid, hnrrev]
  · intro prov ref uid d d' resp hstart r hr hnotin
    unfold KYCService.start_verification at hstart
    split at hstart
    · exact absurd hstart (by simp)
    · split at hstart
      · exact absurd hstart (by simp)
      · next res =>
        dsimp only at hstart
        have hd' : d' = d.createRecord uid ref
            (KYCService._get_status_from_result res) (some res.toJObj) := by
          have := congrArg (fun x => match x with
            | Except.ok p => p.2
            | Except.error e => e.2) hstart
          simpa using this.symm
        subst hd'
        unfold DB.createRecord at hr
        dsimp only at hr
        rcases List.mem_append.mp hr with hra | hra
        · exact absurd (List.mem_map_of_mem (fun x => x.id) hra) hnotin
        · have hr1 : r = _ := List.mem_singleton.mp hra
          rw [hr1]
  · intro uid d s hst
    unfold KYCService.get_verification_status_by_user_id at hst
    split at hst
    · exact absurd hst (by simp)
    · split at hst
      · exact absurd hst (by simp)
      · injection hst with h1
        injection h1 with h2
        rw [← h2]

/-- Witness for C8's amended statement: on the concrete pending webhook the
target record's `reviewed_at` becomes non-null. -/
theorem C8_reviewed_at_set_by_any_webhook_witness :
    KYCRepository.find_by_reference dbPending wdRequestPending.reference
        = some recPending
    ∧ ∀ r ∈ dbAfterPendingWebhook.records, r.id = recPending.id →
        r.reviewed_at ≠ none := by
  refine ⟨rfl, ?_⟩
  exact (C8_reviewed_at_set_by_any_webhook "x" wdRequestPending dbPending
    dbAfterPendingWebhook recPending rfl rfl).1

/-- Counterexample for C9: `_get_status_from_result` stores the dot-suffix
of whatever event the provider returns, so a start whose provider result
carries `request.invalid` creates a record in status `"invalid"`, outside
the seven documented values. -/
theorem C9_counterexample_start_stores_unlisted_status :
    KYCService.start_verification (.ok shuftiInvalidRes) "KYC_X" 1
        dbNoRecords
      = .ok ({ verification_id := 10, reference := "KYC_X",
               verification_url := some "u" }, dbAfterBadStart)
    ∧ dbAfterBadStart.records.map (fun r => r.status) = ["invalid"]
    ∧ "invalid" ∉ allowedStatuses := by
  refine ⟨rfl, rfl, by decide⟩

/-- C9 (amended): every operation keeps every record's status within the
seven documented values, provided each provider result handed to a start
operation classifies (via `_get_status_from_result`, i.e. its event's first
dot-suffix, else `initiated`) to one of the seven — as the documented
provider events do.  Webhook processing, retry scheduling and retry starts
need no such proviso. -/
theorem C9_status_vocabulary_invariant (db : DB)
    (hInv : ∀ r ∈ db.records, r.status ∈ allowedStatuses) :
    (∀ prov ref uid resp db',
        KYCService.start_verification prov ref uid db = .ok (resp, db') →
        (∀ res, prov = Except.ok res →
          KYCService._get_status_from_result res ∈ allowedStatuses) →
        ∀ r ∈ db'.records, r.status ∈ allowedStatuses)
    ∧ (∀ prov ref uid resp db',
        KYCService.start_verification_by_user_id prov ref uid db
            = .ok (resp, db') →
        (∀ res, prov = Except.ok res →
          KYCService._get_status_from_result res ∈ allowedStatuses) →
        ∀ r ∈ db'.records, r.status ∈ allowedStatuses)
    ∧ (∀ prov uid,
        ∀ r ∈ (KYCService.start_retry_verification prov uid db).2.records,
          r.status ∈ allowedStatuses)
    ∧ (∀ fresh wd db',
        KYCService.process_webhook fresh wd db = .ok db' →
        ∀ r ∈ db'.records, r.status ∈ allowedStatuses) := by
  have hstart : ∀ prov ref uid resp db',
      KYCService.start_verification prov ref uid db = .ok (resp, db') →
      (∀ res, prov = Except.ok res →
        KYCService._get_status_from_result res ∈ allowedStatuses) →
      ∀ r ∈ db'.records, r.status ∈ allowedStatuses := by
    intro prov ref uid resp db' hok hgood r hr
    unfold KYCService.start_verification at hok
    split at hok
    · exact absurd hok (by simp)
    · split at hok
      · exact absurd hok (by simp)
      · next res =>
        dsimp only at hok
        have hd' : db' = db.createRecord uid ref
            (KYCService._get_status_from_result res) (some res.toJObj) := by
          have := congrArg (fun x => match x with
            | Except.ok p => p.2
            | Except.error e => e.2) hok
          simpa using this.symm
        subst hd'
        unfold DB.createRecord at hr
        dsimp only at hr
        rcases List.mem_append.mp hr with hra | hra
        · exact hInv r hra
        · have hr1 : r = _ := List.mem_singleton.mp hra
          rw [hr1]
          exact hgood res rfl
  refine ⟨hstart, ?_, ?_, ?_⟩
  · intro prov ref uid resp db' hok hgood
    unfold KYCService.start_verification_by_user_id at hok
    split at hok
    · exact absurd hok (by simp)
    · split at hok
      · exact absurd hok (by simp)
      · split at hok
        · exact absurd hok (by simp)
        · split at hok
          · exact absurd hok (by simp)
          · exact hstart prov ref uid resp db' hok hgood
  · intro prov uid r hr
    unfold KYCService.start_retry_verification at hr
    split at hr
    · exact hInv r hr
    · split at hr
      · exact hInv r hr
      · split at hr
        · exact hInv r hr
        · split at hr
          · exact hInv r hr
          · dsimp only at hr
            obtain ⟨a, ha, hfa⟩ := List.mem_map.mp hr
            rw [← hfa]
            split
            · exact (by decide : ("pending" : String) ∈ allowedStatuses)
            · exact hInv a ha
  · intro fresh wd db' hok r hr
    by_cases href : wd.reference = ""
    · exfalso
      unfold KYCService.process_webhook at hok
      simp [href] at hok
    cases hfind : KYCRepository.find_by_reference db wd.reference with
    | none =>
      exfalso
      unfold KYCService.process_webhook at hok
      simp [href, hfind] at hok
    | some v =>
      rw [KYCFacts.process_webhook_eq_ok fresh wd db v href hfind] at hok
      have hdb : KYCService.webhookPostState fresh wd v db = db' := by
        injection hok
      subst hdb
      rw [KYCFacts.webhookPostState_records] at hr
      unfold DB.updateRecord at hr
      dsimp only at hr
      obtain ⟨a, ha, hfa⟩ := List.mem_map.mp hr
      have hamem : a ∈ db.records ∨ a.status = "retry_pending" := by
        rcases KYCFacts.declineRetryStep_records_strong fresh wd v
            (KYCService.webhookNewStatus wd.event wd.verification_status)
            (KYCService.webhookBaseData wd v) db with hcase |
              ⟨nr, hcase, _, hnrst, _⟩
        · rw [hcase] at ha
          exact Or.inl ha
        · rw [hcase] at ha
          rcases List.mem_append.mp ha with ha | ha
          · exact Or.inl ha
          · right
            have hanr : a = nr := by simpa using ha
            rw [hanr, hnrst]
      rw [← hfa]
      split
      · exact KYCFacts.webhookNewStatus_mem_allowed ..
      · rcases hamem with h | h
        · exact hInv a h
        · rw [h]
          decide

/-- Witness for C9's amended statement: the usual `request.pending` start on
the empty database keeps all statuses in the vocabulary. -/
theorem C9_status_vocabulary_invariant_witness :
    (∀ r ∈ dbNoRecords.records, r.status ∈ allowedStatuses)
    ∧ ∀ r ∈ dbAfterGoodStart.records, r.status ∈ allowedStatuses := by
  refine ⟨by decide, ?_⟩
  exact (C9_status_vocabulary_invariant dbNoRecords (by decide)).1
    (.ok shuftiPendingRes) "KYC_X" 1
    { verification_id := 10, reference := "KYC_X",
      verification_url := some "u" }
    dbAfterGoodStart rfl
    (fun res hres => by cases hres; decide)

namespace KYCFacts

/-- With the empty retry-blocked table, the code-scan loop reports
`(should_retry, retry_blocked) = (acc || any eligible, false)`. -/
theorem classifyCodes_eq_any (codes : List String) (b : Bool) :
    KYCService.classifyCodes codes b
      = (b || codes.any (fun c => KYCService.retry_eligible_codes.contains c),
         false) := by
  induction codes generalizing b with
  | nil => simp [KYCService.classifyCodes]
  | cons c rest ih =>
    unfold KYCService.classifyCodes
    split
    · next hblk =>
      have hfalse : KYCService.retry_blocked_codes.contains c = false := rfl
      rw [hfalse] at hblk
      exact Bool.noConfusion hblk
    · split
      · next helig =>
        rw [ih true, List.any_cons, helig]
        simp only [Bool.true_or, Bool.or_true]
      · next hnelig =>
        simp only [Bool.not_eq_true] at hnelig
        rw [ih b, List.any_cons, hnelig]
        simp only [Bool.false_or]

theorem codes_any_iff_exists (codes : List String) :
    (codes.any (fun c => KYCService.retry_eligible_codes.contains c) = true)
      ↔ ∃ c ∈ codes, c ∈ KYCService.retry_eligible_codes := by
  rw [List.any_eq_true]
  constructor
  · rintro ⟨c, hc, hcon⟩
    exact ⟨c, hc, List.elem_iff.mp hcon⟩
  · rintro ⟨c, hc, hmem⟩
    exact ⟨c, hc, List.elem_iff.mpr hmem⟩

/-- Without the trigger condition of C10, the decline step leaves the
database untouched (it may still only rewrite `existing_data`). -/
theorem declineRetryStep_db_of_not_trigger (fresh : String)
    (wd : WebhookData) (v : KYCRec) (ed : JObj) (db : DB)
    (hnot : ¬ autoRetryTrigger wd) :
    (KYCService.declineRetryStep fresh wd v
        (KYCService.webhookNewStatus wd.event wd.verification_status) ed
        db).2 = db := by
  unfold KYCService.declineRetryStep
  split
  · next hcond =>
    have hany : (wd.declined_codes.getD []).any
        (fun c => KYCService.retry_eligible_codes.contains c) = false := by
      by_contra hcon
      apply hnot
      refine ⟨hcond.1, hcond.2, ?_, ?_⟩
      · exact (codes_any_iff_exists _).mp (by simpa using hcon)
      · intro c hc hmem
        exact absurd hmem (List.not_mem_nil c)
    simp only [KYCService.declineActive, classifyCodes_eq_any, hany,
      Bool.or_false, Bool.false_and, Bool.not_false, Bool.and_true]
    rfl
  · rfl

end KYCFacts

/-- C10: retry scheduling and user blocking happen only on a decline webhook
whose payload has a `declined_reason`/`declined_codes` key and whose codes
contain a retry-eligible code and no retry-blocked code; any processed
webhook not meeting that condition creates no record at all (in particular
no `retry_pending` one) and flips no user's `is_blocked`, regardless of how
many declined records the user already has. -/
theorem C10_retry_and_block_only_on_eligible_decline (fresh : String)
    (wd : WebhookData) (db db' : DB)
    (hok : KYCService.process_webhook fresh wd db = .ok db')
    (hnot : ¬ autoRetryTrigger wd) :
    db'.records.map (fun r => r.reference)
        = db.records.map (fun r => r.reference)
    ∧ ∀ uid, (db'.getUserById uid).map (fun x => x.is_blocked)
        = (db.getUserById uid).map (fun x => x.is_blocked) := by
  by_cases href : wd.reference = ""
  · exfalso
    unfold KYCService.process_webhook at hok
    simp [href] at hok
  cases hfind : KYCRepository.find_by_reference db wd.reference with
  | none =>
    exfalso
    unfold KYCService.process_webhook at hok
    simp [href, hfind] at hok
  | some v =>
    rw [KYCFacts.process_webhook_eq_ok fresh wd db v href hfind] at hok
    have hdb : KYCService.webhookPostState fresh wd v db = db' := by
      injection hok
    subst hdb
    have hstep := KYCFacts.declineRetryStep_db_of_not_trigger fresh wd v
      (KYCService.webhookBaseData wd v) db hnot
    constructor
    · rw [KYCFacts.webhookPostState_records, hstep,
        KYCFacts.updateRecord_refs]
    · intro uid
      unfold KYCService.webhookPostState
      dsimp only
      split
      · rw [KYCFacts.upd_user_status_getUser_ib,
          KYCFacts.updateRecord_getUser, hstep]
      · rw [KYCFacts.updateRecord_getUser, hstep]

/-- Witness for C10: the non-decline `request.pending` webhook neither adds
a record nor blocks anyone. -/
theorem C10_retry_and_block_only_on_eligible_decline_witness :
    ¬ autoRetryTrigger wdRequestPending
    ∧ dbAfterPendingWebhook.records.map (fun r => r.reference)
        = dbPending.records.map (fun r => r.reference)
    ∧ (dbAfterPendingWebhook.getUserById 1).map (fun x => x.is_blocked)
        = (dbPending.getUserById 1).map (fun x => x.is_blocked) := by
  refine ⟨by decide, ?_, ?_⟩
  · exact (C10_retry_and_block_only_on_eligible_decline "x" wdRequestPending
      dbPending dbAfterPendingWebhook rfl (by decide)).1
  · exact (C10_retry_and_block_only_on_eligible_decline "x" wdRequestPending
      dbPending dbAfterPendingWebhook rfl (by decide)).2 1

namespace KYCFacts

/-- The database component of `scheduleRetry` does not depend on the
`reasonsJ` marker or the accumulated `existing_data`. -/
theorem scheduleRetry_db_indep (fresh : String) (v : KYCRec) (rj rj' : JVal)
    (dc : List String) (rc : Nat) (ed ed' : JObj) (db : DB) :
    (KYCService.scheduleRetry fresh v rj dc rc ed db).2
      = (KYCService.scheduleRetry fresh v rj' dc rc ed' db).2 := by
  unfold KYCService.scheduleRetry
  cases hx : db.getUserById v.user_id <;> rfl

theorem blockAfterMaxRetries_db_indep (v : KYCRec) (ed ed' : JObj)
    (db : DB) :
    (KYCService.blockAfterMaxRetries v ed db).2
      = (KYCService.blockAfterMaxRetries v ed' db).2 := by
  unfold KYCService.blockAfterMaxRetries
  cases hx : db.getUserById v.user_id <;> rfl

/-- When the user row exists, `scheduleRetry` appends exactly the new
`retry_pending` row. -/
theorem scheduleRetry_db_eq (fresh : String) (v : KYCRec) (rj : JVal)
    (dc : List String) (rc : Nat) (ed : JObj) (db : DB) (u : UserRec)
    (hu : db.getUserById v.user_id = some u) :
    (KYCService.scheduleRetry fresh v rj dc rc ed db).2
      = db.createRecord v.user_id
          ("RETRY_" ++ toString (rc + 1) ++ "_" ++ v.reference ++ "_"
            ++ fresh)
          "retry_pending"
          (some [("retry_info", JVal.jobj
            [("is_retry", JVal.jbool true),
             ("attempt_number", JVal.jnat (rc + 1)),
             ("original_reference", JVal.jstr v.reference),
             ("decline_reasons", JVal.jarr (dc.map JVal.jstr))])]) := by
  unfold KYCService.scheduleRetry
  simp only [hu]

theorem blockAfterMaxRetries_db_eq (v : KYCRec) (ed : JObj) (db : DB)
    (u : UserRec) (hu : db.getUserById v.user_id = some u) :
    (KYCService.blockAfterMaxRetries v ed db).2
      = if u.is_blocked then db else db.setUserBlocked v.user_id true := by
  unfold KYCService.blockAfterMaxRetries
  simp only [hu]

/-- A `verification.declined` event always classifies to `declined`. -/
theorem webhookNewStatus_declined (vs : String) :
    KYCService.webhookNewStatus "verification.declined" vs = "declined" := by
  unfold KYCService.webhookNewStatus
  rw [if_neg (by decide), if_pos rfl]

/-- Under an eligible decline payload, the decline step's database effect is
the retry/block decision on the user's declined-record count. -/
theorem declineRetryStep_db_trigger (fresh : String) (wd : WebhookData)
    (v : KYCRec) (ns : String) (ed : JObj) (db : DB) (codes : List String)
    (hev : wd.event = "verification.declined")
    (hcodes : wd.declined_codes = some codes)
    (helig : ∃ c ∈ codes, c ∈ KYCService.retry_eligible_codes) :
    (KYCService.declineRetryStep fresh wd v ns ed db).2
      = if declinedRetryCount db v.user_id < 2
        then (KYCService.scheduleRetry fresh v JVal.jnull codes
              (declinedRetryCount db v.user_id) [] db).2
        else (KYCService.blockAfterMaxRetries v [] db).2 := by
  have hany : codes.any
      (fun c => KYCService.retry_eligible_codes.contains c) = true :=
    (codes_any_iff_exists codes).mpr helig
  unfold KYCService.declineRetryStep
  rw [if_pos ⟨Or.inl hev, Or.inr (by rw [hcodes]; rfl)⟩]
  simp only [KYCService.declineActive, hcodes, Option.getD_some,
    classifyCodes_eq_any, hany, Bool.false_or, Bool.not_false, Bool.and_true,
    if_true]
  rw [show (List.filter (fun x => x.status == "declined")
      (KYCRepository.get_user_verifications db v.user_id)).length
    = declinedRetryCount db v.user_id from rfl]
  split
  · exact scheduleRetry_db_indep ..
  · exact blockAfterMaxRetries_db_indep ..

end KYCFacts

/-- C1: for a decline webhook carrying at least one retry-eligible code and
no retry-blocked code, targeting an existing record of an existing user:
while the user's count of `declined` records is below the threshold 2,
processing appends exactly one new `retry_pending` record whose reference is
the freshly derived `RETRY_<n>_<original>_<uuid>` string (not previously
present) and changes no user's `is_blocked`; once the count has reached 2
(the 3rd decline), no record is appended and the user's `is_blocked` becomes
true — idempotently, the write being skipped when already blocked — while
other users' flags are untouched. -/
theorem C1_auto_retry_below_threshold_then_block (fresh : String)
    (wd : WebhookData) (db db' : DB) (v : KYCRec) (u : UserRec)
    (codes : List String)
    (hev : wd.event = "verification.declined")
    (hcodes : wd.declined_codes = some codes)
    (helig : ∃ c ∈ codes, c ∈ KYCService.retry_eligible_codes)
    (hblk : ∀ c ∈ codes, c ∉ KYCService.retry_blocked_codes)
    (hv : KYCRepository.find_by_reference db wd.reference = some v)
    (hu : db.getUserById v.user_id = some u)
    (hid : ∀ r ∈ db.records, r.id < db.next_id)
    (hfresh : ("RETRY_" ++ toString (declinedRetryCount db v.user_id + 1)
        ++ "_" ++ v.reference ++ "_" ++ fresh)
      ∉ db.records.map (fun r => r.reference))
    (hok : KYCService.process_webhook fresh wd db = .ok db') :
    (declinedRetryCount db v.user_id < 2 →
      db'.records.map (fun r => (r.reference, r.status))
        = db.records.map (fun r => (r.reference,
            if r.id == v.id then "declined" else r.status))
          ++ [("RETRY_" ++ toString (declinedRetryCount db v.user_id + 1)
                ++ "_" ++ v.reference ++ "_" ++ fresh, "retry_pending")]
      ∧ ("RETRY_" ++ toString (declinedRetryCount db v.user_id + 1)
          ++ "_" ++ v.reference ++ "_" ++ fresh)
          ∉ db.records.map (fun r => r.reference)
      ∧ ∀ uid, (db'.getUserById uid).map (fun x => x.is_blocked)
          = (db.getUserById uid).map (fun x => x.is_blocked))
    ∧ (2 ≤ declinedRetryCount db v.user_id →
      db'.records.map (fun r => (r.reference, r.status))
        = db.records.map (fun r => (r.reference,
            if r.id == v.id then "declined" else r.status))
      ∧ (db'.getUserById v.user_id).map (fun x => x.is_blocked) = some true
      ∧ ∀ uid, uid ≠ v.user_id →
          (db'.getUserById uid).map (fun x => x.is_blocked)
            = (db.getUserById uid).map (fun x => x.is_blocked)) := by
  have href : wd.reference ≠ "" := by
    intro h
    unfold KYCService.process_webhook at hok
    simp [h] at hok
  rw [KYCFacts.process_webhook_eq_ok fresh wd db v href hv] at hok
  have hdb : KYCService.webhookPostState fresh wd v db = db' := by
    injection hok
  subst hdb
  have hv' : db.records.find? (fun r => r.reference == wd.reference)
      = some v := hv
  have hvmem : v ∈ db.records := List.mem_of_find?_eq_some hv'
  have hns : KYCService.webhookNewStatus wd.event wd.verification_status
      = "declined" := by
    rw [hev]
    exact KYCFacts.webhookNewStatus_declined wd.verification_status
  have hstep := KYCFacts.declineRetryStep_db_trigger fresh wd v
    (KYCService.webhookNewStatus wd.event wd.verification_status)
    (KYCService.webhookBaseData wd v) db codes hev hcodes helig
  have hbeq : db.next_id ≠ v.id := ne_of_gt (hid v hvmem)
  constructor
  · intro hlt
    rw [if_pos hlt] at hstep
    rw [KYCFacts.scheduleRetry_db_eq fresh v JVal.jnull codes
      (declinedRetryCount db v.user_id) [] db u hu] at hstep
    refine ⟨?_, hfresh, ?_⟩
    · rw [KYCFacts.webhookPostState_records, KYCFacts.updateRecord_ref_status,
        hstep]
      unfold DB.createRecord
      dsimp only
      rw [List.map_append, hns]
      congr 1
      simp [hbeq]
    · intro uid
      unfold KYCService.webhookPostState
      dsimp only
      rw [if_pos (Or.inr hns)]
      rw [KYCFacts.upd_user_status_getUser_ib,
        KYCFacts.updateRecord_getUser, hstep,
        KYCFacts.getUserById_congr_users _ db
          (KYCFacts.createRecord_users ..) uid]
  · intro hge
    rw [if_neg (Nat.not_lt.mpr hge)] at hstep
    refine ⟨?_, ?_, ?_⟩
    · rw [KYCFacts.webhookPostState_records, KYCFacts.updateRecord_ref_status,
        hstep, KYCFacts.blockAfterMaxRetries_records, hns]
    · unfold KYCService.webhookPostState
      dsimp only
      rw [if_pos (Or.inr hns)]
      rw [KYCFacts.upd_user_status_getUser_ib,
        KYCFacts.updateRecord_getUser, hstep]
      exact KYCFacts.blockAfterMaxRetries_getUser_self_ib v [] db u hu
    · intro uid hne
      unfold KYCService.webhookPostState
      dsimp only
      rw [if_pos (Or.inr hns)]
      rw [KYCFacts.upd_user_status_getUser_ib,
        KYCFacts.updateRecord_getUser, hstep]
      rw [KYCFacts.blockAfterMaxRetries_getUser_ne v [] db uid hne]

/-- Witness for C1: the first eligible decline appends a `retry_pending`
record without blocking; the third eligible decline appends nothing and
blocks the user. -/
theorem C1_auto_retry_below_threshold_then_block_witness :
    dbAfterDecline.records.map (fun r => (r.reference, r.status))
        = [("REF1", "declined"), ("RETRY_1_REF1_aaaa", "retry_pending")]
    ∧ (dbAfterThirdDecline.getUserById 1).map (fun x => x.is_blocked)
        = some true
    ∧ dbAfterThirdDecline.records.map (fun r => (r.reference, r.status))
        = [("D1", "declined"), ("D2", "declined"), ("REF3", "declined")] := by
  have hA := C1_auto_retry_below_threshold_then_block "aaaa"
    wdDeclineEligible dbPending dbAfterDecline recPending userA ["SPDR07"]
    rfl rfl (by decide) (by decide) rfl rfl (by decide) (by decide) rfl
  have hB := C1_auto_retry_below_threshold_then_block "cccc" wdDecline3
    dbExhausted dbAfterThirdDecline recPending3 userA ["SPDR07"]
    rfl rfl (by decide) (by decide) rfl rfl (by decide) (by decide) rfl
  refine ⟨?_, ?_, ?_⟩
  · exact ((hA.1 (by decide)).1).trans (by decide)
  · exact (hB.2 (by decide)).2.1
  · exact ((hB.2 (by decide)).1).trans (by decide)
